import Mathlib

/-!
Verification of the generic-exporter-operator charm core.

Shallow embedding of:
  * `src/snap_singleton.py` — file-based peer registration for singleton snaps
    (strings are modelled as `List Char`; the registration directory as a list
    of filenames; `OSError` as `Except Unit`),
  * `src/utils.py` — `flatten_dict` / `merge_dicts` on nested dicts, and the
    tenacity retry wrappers (`check_metrics_endpoint`, `decode_secret_with_retry`),
  * `src/snap_manager.py` — the retry policy of `SnapClient.check`,
  * `src/config.py` — `CharmConfig.check_required_fields`,
  * `src/charm.py` — the reconcile / remove control flow, with the external
    snap-manager boundary modelled as a success oracle (`SnapEnv`) and side
    effects recorded in a trace.
-/

/-! ## Strings as character lists (`snap_singleton.py` works on filenames) -/

abbrev Str := List Char

/-- Python `str.split(sep)` for a non-empty separator: leftmost,
non-overlapping matches; returns the (possibly empty) pieces between them.
Structural recursion on a fuel bound (the input length) so that the
function evaluates definitionally; each step consumes at least one
character, so the fuel never runs out when called through `splitSeq`. -/
def splitSeqAux (sep : Str) : Nat → Str → List Str
  | _, [] => [[]]
  | 0, s => [s]
  | fuel + 1, c :: rest =>
    if !sep.isEmpty && sep.isPrefixOf (c :: rest) then
      [] :: splitSeqAux sep fuel ((c :: rest).drop sep.length)
    else
      match splitSeqAux sep fuel rest with
      | [] => [[c]]
      | hd :: tl => (c :: hd) :: tl

def splitSeq (sep s : Str) : List Str := splitSeqAux sep s.length s

/-- `SnapRegistrationFile.PREFIX = "LCK.."`. -/
def PREFIX_LCK : Str := ['L', 'C', 'K', '.', '.']

/-- `SnapRegistrationFile.SEPARATOR_UNIT = "__"`. -/
def SEPARATOR_UNIT : Str := ['_', '_']

/-- `SnapRegistrationFile._normalize_name`: `re.sub(r"[^\w-]", "_", name)`,
with `\w` read as ASCII `[A-Za-z0-9_]` (the names involved are ASCII). -/
def normalize_name (name : Str) : Str :=
  name.map (fun c => if c.isAlphanum || c = '_' || c = '-' then c else '_')

/-- `SnapRegistrationFile.filename`:
`PREFIX + snap_name + SEPARATOR_UNIT + _normalize_name(unit_name)`. -/
def regFilename (snap_name unit_name : Str) : Str :=
  PREFIX_LCK ++ snap_name ++ SEPARATOR_UNIT ++ normalize_name unit_name

/-- `SnapRegistrationFile.from_filename`: both tuple unpackings demand exactly
two pieces; anything else raises `ValueError`, modelled as `.error ()`.
Returns `(snap_name, unit_name)`. -/
def from_filename (filename : Str) : Except Unit (Str × Str) :=
  match splitSeq PREFIX_LCK filename with
  | [_, rest] =>
    match splitSeq SEPARATOR_UNIT rest with
    | [snap, unit] => .ok (snap, unit)
    | _ => .error ()
  | _ => .error ()

/-! ## The registration directory (`SingletonSnapManager`)

The lock directory is modelled as the list of filenames it contains (the
registration files are empty, so a filename carries all the state).  `OSError`
is modelled as `Except Unit`. -/

abbrev Registry := List Str

/-- `SingletonSnapManager.register`: `open(path, "w")` creates the file, or
truncates an existing (already empty) one — the directory gains the filename
if absent. -/
def register (st : Registry) (unit_name snap_name : Str) : Registry :=
  let f := regFilename snap_name unit_name
  if f ∈ st then st else st ++ [f]

/-- `SingletonSnapManager.unregister`: `os.remove` deletes the file, raising
`FileNotFoundError` (an `OSError`) if it is absent. -/
def unregister (st : Registry) (unit_name snap_name : Str) : Except Unit Registry :=
  let f := regFilename snap_name unit_name
  if f ∈ st then .ok (st.erase f) else .error ()

/-- `SingletonSnapManager.get_units`: parse every filename in the directory
(`from_filename`; a parse failure raises) and collect the unit names whose
snap name matches.  Python returns a `set`; we return the matching unit names
as a list — only membership is ever consumed. -/
def get_units (st : Registry) (snap_name : Str) : Except Unit (List Str) :=
  match st with
  | [] => .ok []
  | f :: rest =>
    match from_filename f with
    | .error e => .error e
    | .ok p =>
      match get_units rest snap_name with
      | .error e => .error e
      | .ok units => .ok (if p.1 = snap_name then p.2 :: units else units)

/-- `SingletonSnapManager.is_used_by_other_units`:
`any(unit != self.unit_name for unit in self.get_units(snap_name))`. -/
def is_used_by_other_units (st : Registry) (self_unit snap_name : Str) : Except Unit Bool :=
  match get_units st snap_name with
  | .error e => .error e
  | .ok units => .ok (units.any (fun u => u != self_unit))

/-! ### Basic registry lemmas -/

theorem regFilename_eq_iff (X u v : Str) :
    regFilename X u = regFilename X v ↔ normalize_name u = normalize_name v := by
  unfold regFilename
  constructor
  · intro h
    have h1 := List.append_cancel_left h
    exact h1
  · intro h; rw [h]

theorem get_units_cons_ok (f : Registry) (x : Str) (snap s u : Str) (us : List Str)
    (hf : from_filename x = .ok (s, u)) (hrest : get_units f snap = .ok us) :
    get_units (x :: f) snap = .ok (if s = snap then u :: us else us) := by
  simp [get_units, hf, hrest]

theorem get_units_nil (snap : Str) : get_units [] snap = .ok [] := rfl

/-! ### Concrete names used in counterexamples and witnesses -/

/-- The peer id `"u/0"` (a Juju-style unit name; `/` is outside `[A-Za-z0-9_-]`). -/
def slashUnit : Str := ['u', '/', '0']

/-- Its filename encoding `"u_0"`. -/
def slashUnitNorm : Str := ['u', '_', '0']

def snapA : Str := ['s', 'n', 'a', 'p']

example : normalize_name slashUnit = slashUnitNorm := by decide
example : from_filename (regFilename snapA slashUnit) = .ok (snapA, slashUnitNorm) := rfl
example : splitSeq SEPARATOR_UNIT ['a', '_', '_', '_', 'b'] = [['a'], ['_', 'b']] := rfl
example : splitSeq PREFIX_LCK (['x'] ++ PREFIX_LCK ++ ['a']) = [['x'], ['a']] := rfl
example : from_filename (regFilename ['a', '_', '_', 'b'] ['u']) = .error () := rfl

def unit0 : Str := ['u', 'n', 'i', 't', '-', '0']

def unit1 : Str := ['u', 'n', 'i', 't', '-', '1']

/-- A malformed parse propagates out of `get_units`: the directory enumeration
fails as soon as some filename is unparseable, and succeeds otherwise. -/
theorem get_units_error_iff (files : Registry) (snap : Str) :
    get_units files snap = .error () ↔ ∃ f ∈ files, from_filename f = .error () := by
  induction files with
  | nil => simp [get_units]
  | cons f rest ih =>
    cases hf : from_filename f with
    | error e =>
      cases e
      constructor
      · intro _; exact ⟨f, List.mem_cons_self f rest, hf⟩
      · intro _; simp [get_units, hf]
    | ok p =>
      cases hrest : get_units rest snap with
      | error e =>
        cases e
        constructor
        · intro _
          obtain ⟨g, hg, he⟩ := ih.mp hrest
          exact ⟨g, List.mem_cons_of_mem f hg, he⟩
        · intro _; simp [get_units, hf, hrest]
      | ok units =>
        constructor
        · intro h
          simp [get_units, hf, hrest] at h
        · rintro ⟨g, hg, he⟩
          rcases List.mem_cons.mp hg with hgf | hgr
          · rw [hgf] at he; rw [he] at hf; cases hf
          · have := ih.mpr ⟨g, hgr, he⟩
            rw [this] at hrest; cases hrest

/-- Claim C1, counterexample: with the single peer id `"u/0"` registered for
`"snap"` — and nobody else — `is_used_by_other_units("u/0", "snap")` already
returns `true` (the stored unit name is the normalized `"u_0"`, which is
compared against the raw `"u/0"`), where the claim demands `false`. -/
theorem c1_counterexample :
    is_used_by_other_units (register [] slashUnit snapA) slashUnit snapA = .ok true ∧
    normalize_name slashUnit ≠ slashUnit := ⟨rfl, by decide⟩

/-- Claim C1 (amended): for peer ids that are fixed points of the filename
normalization, `is_used_by_other_units(p1, X)` is `false` when only `p1` is
registered for `X`, `true` once a peer `p2` whose normalized name differs
from `p1` registers, and `false` again after `p2` unregisters; and in
general it is `true` iff `get_units` (the peer listing, which holds
normalized names) contains an entry other than `p1` itself. -/
theorem c1_is_used_by_other_units_amended (p1 p2 X : Str)
    (h1 : from_filename (regFilename X p1) = .ok (X, normalize_name p1))
    (h2 : from_filename (regFilename X p2) = .ok (X, normalize_name p2))
    (hn1 : normalize_name p1 = p1)
    (hn2 : normalize_name p2 ≠ p1) :
    is_used_by_other_units (register [] p1 X) p1 X = .ok false ∧
    is_used_by_other_units (register (register [] p1 X) p2 X) p1 X = .ok true ∧
    unregister (register (register [] p1 X) p2 X) p2 X = .ok (register [] p1 X) ∧
    (∀ (st : Registry) (us : List Str), get_units st X = .ok us →
      (is_used_by_other_units st p1 X = .ok true ↔ ∃ v ∈ us, v ≠ p1)) := by
  have hreg1 : register [] p1 X = [regFilename X p1] := by simp [register]
  have hnn : normalize_name p2 ≠ normalize_name p1 := by rw [hn1]; exact hn2
  have hne : regFilename X p2 ≠ regFilename X p1 := by
    rw [Ne, regFilename_eq_iff]; exact hnn
  have hreg2 : register (register [] p1 X) p2 X
      = [regFilename X p1, regFilename X p2] := by
    rw [hreg1]
    simp [register, hne]
  refine ⟨?_, ?_, ?_, ?_⟩
  · rw [hreg1]
    simp [is_used_by_other_units, get_units, h1, hn1]
  · rw [hreg2]
    simp [is_used_by_other_units, get_units, h1, h2, hn1, bne_iff_ne, hn2]
  · rw [hreg2, hreg1]
    simp [unregister, List.erase_cons, hne, hne.symm]
  · intro st us h
    simp [is_used_by_other_units, h, List.any_eq_true, bne_iff_ne]

/-- Claim C1, witness: the amended scenario at the `"unit-0"` / `"unit-1"` /
`"snap"` instance (both names are normalization-stable). -/
theorem c1_witness :
    is_used_by_other_units (register (register [] unit0 snapA) unit1 snapA) unit0 snapA
      = .ok true :=
  (c1_is_used_by_other_units_amended unit0 unit1 snapA rfl rfl (by decide) (by decide)).2.1

/-- Claim C5, counterexample: after `register("u/0", "snap")` the peer listing
for `"snap"` is `{"u_0"}` — it does not contain the peer id `"u/0"` itself,
because the filename encoding normalizes `/` to `_`. -/
theorem c5_counterexample :
    get_units (register [] slashUnit snapA) snapA = .ok [slashUnitNorm] ∧
    slashUnit ∉ [slashUnitNorm] := ⟨rfl, by decide⟩

/-- Claim C5 (amended): after `register(peer_id, package_name)` the peer
listing for the package contains `normalize(peer_id)` (not necessarily
`peer_id` itself), and after the corresponding `unregister` the listing is
empty again — stated for names whose encoded filename parses back. -/
theorem c5_register_unregister_amended (u X : Str)
    (h : from_filename (regFilename X u) = .ok (X, normalize_name u)) :
    get_units (register [] u X) X = .ok [normalize_name u] ∧
    unregister (register [] u X) u X = .ok [] ∧
    get_units ([] : Registry) X = .ok [] := by
  have hreg : register [] u X = [regFilename X u] := by simp [register]
  refine ⟨?_, ?_, rfl⟩
  · rw [hreg]; simp [get_units, h]
  · rw [hreg]; simp [unregister]

/-- Claim C5, witness: the amended statement at `"unit-0"` / `"snap"`. -/
theorem c5_witness :
    get_units (register [] unit0 snapA) snapA = .ok [normalize_name unit0] :=
  (c5_register_unregister_amended unit0 snapA rfl).1

/-- Claim C7: `unregister` for a peer/package pair with no matching
registration file fails with the modelled I/O error (`os.remove` raises
`FileNotFoundError`); no new registry state is produced, so the directory
contents are untouched by the failed call. -/
theorem c7_unregister_missing_fails (st : Registry) (u snapName : Str)
    (h : regFilename snapName u ∉ st) :
    unregister st u snapName = .error () := by
  simp [unregister, h]

/-- Claim C7, witness: unregistering from an empty directory fails. -/
theorem c7_witness : unregister [] unit0 snapA = .error () :=
  c7_unregister_missing_fails [] unit0 snapA (by decide)

def strayFile : Str := ['x'] ++ PREFIX_LCK ++ ['a'] ++ SEPARATOR_UNIT ++ ['b']

/-- Claim C10, counterexample: the directory entry `"xLCK..a__b"` does not
consist of the prefix `"LCK.."` followed by a snap name, one separator and a
peer id (it does not even start with the prefix), yet `get_units` does not
raise on it — `str.split` finds the prefix mid-string, so the file parses as
`("a", "b")` and is silently counted. -/
theorem c10_counterexample :
    PREFIX_LCK.isPrefixOf strayFile = false ∧
    get_units [strayFile] ['a'] = .ok [['b']] ∧
    is_used_by_other_units [strayFile] ['u'] ['a'] = .ok true :=
  ⟨rfl, rfl, rfl⟩

/-- Claim C10 (amended): `get_units` raises exactly when some directory entry
fails the parse in `from_filename` (splitting on `"LCK.."` and then on `"__"` must
each yield exactly two pieces); `is_used_by_other_units` propagates that
error.  In particular a foreign file without the prefix raises, and so does a
registration record for a snap name containing `"__"`.  A malformed name that
still splits into two pieces each time (e.g. with the prefix mid-string) is
accepted rather than raised on. -/
theorem c10_get_units_error_amended :
    (∀ (files : Registry) (snap : Str),
        get_units files snap = .error () ↔ ∃ f ∈ files, from_filename f = .error ()) ∧
    (∀ (files : Registry) (self snap : Str),
        get_units files snap = .error () →
          is_used_by_other_units files self snap = .error ()) ∧
    from_filename ['R', 'E', 'A', 'D', 'M', 'E'] = .error () ∧
    from_filename (regFilename ['a', '_', '_', 'b'] ['u']) = .error () := by
  refine ⟨get_units_error_iff, ?_, rfl, rfl⟩
  intro files self snap h
  simp [is_used_by_other_units, h]

/-- Claim C10, witness: a directory holding only `"README"` makes
`is_used_by_other_units` raise. -/
theorem c10_witness :
    is_used_by_other_units [['R', 'E', 'A', 'D', 'M', 'E']] unit0 snapA = .error () :=
  c10_get_units_error_amended.2.1 [['R', 'E', 'A', 'D', 'M', 'E']] unit0 snapA rfl

/-! ## Nested configuration dicts (`utils.py`)

A Python dict value is either a nested dict or a scalar leaf.  `merge_dicts`
and `flatten_dict` only ever test `isinstance(v, dict)` and never inspect a
leaf, so leaves are modelled by one constructor with an opaque payload.
A dict is modelled as its ordered entry list (Python dicts preserve
insertion order and have unique keys; uniqueness is the `wfEntries`
predicate below). -/

inductive JVal where
  | vleaf : String → JVal
  | vdict : List (String × JVal) → JVal

abbrev Entries := List (String × JVal)

/-- Python `key in result` / `result[key]` on an entry list. -/
def lookupEntry (k : String) : Entries → Option JVal
  | [] => none
  | (k', v) :: rest => if k' = k then some v else lookupEntry k rest

/-- Python `result[key] = w` on an entry list: replace the value at the first
occurrence of the key, keeping its position. -/
def updateEntry (k : String) (w : JVal) : Entries → Entries
  | [] => []
  | (k', v) :: rest => if k' = k then (k', w) :: rest else (k', v) :: updateEntry k w rest

/-- `f"{path}.{key}" if path else key` — shared by `merge_dicts` and
`flatten_dict`. -/
def childPath (path k : String) : String := if path = "" then k else path ++ "." ++ k

/-- `merge_dicts(data_1, data_2, path)`: start from a copy of `data_1`, walk
`data_2` in order; a missing key is inserted, two dicts recurse, anything
else raises `ValueError` naming the dotted path. -/
def mergeEntries : Entries → Entries → String → Except String Entries
  | acc, [], _ => .ok acc
  | acc, (k, v) :: rest, path =>
    match lookupEntry k acc with
    | none => mergeEntries (acc ++ [(k, v)]) rest path
    | some (JVal.vdict e0) =>
      match v with
      | JVal.vdict e2 =>
        match mergeEntries e0 e2 (childPath path k) with
        | .ok m => mergeEntries (updateEntry k (JVal.vdict m) acc) rest path
        | .error e => .error e
      | _ => .error ("The configs conflict at key: " ++ childPath path k)
    | some _ => .error ("The configs conflict at key: " ++ childPath path k)
termination_by _ l _ => sizeOf l

/-- `merge_dicts` with its default `path=""`. -/
def merge_dicts (data_1 data_2 : Entries) : Except String Entries :=
  mergeEntries data_1 data_2 ""

/-- The item list built by `flatten_dict(data, parent_key)` before the final
`dict(items)`. -/
def flattenEntries : Entries → String → List (String × JVal)
  | [], _ => []
  | (k, JVal.vdict sub) :: rest, parent =>
      flattenEntries sub (childPath parent k) ++ flattenEntries rest parent
  | (k, JVal.vleaf s) :: rest, parent =>
      (childPath parent k, JVal.vleaf s) :: flattenEntries rest parent
termination_by l _ => sizeOf l

/-- Python `dict(items)`: first occurrence fixes the position, a later
duplicate key overwrites the value. -/
def dictInsert (acc : Entries) (k : String) (v : JVal) : Entries :=
  if (lookupEntry k acc).isSome then updateEntry k v acc else acc ++ [(k, v)]

def pyDictAux : Entries → Entries → Entries
  | acc, [] => acc
  | acc, (k, v) :: rest => pyDictAux (dictInsert acc k v) rest

def pyDict (items : Entries) : Entries := pyDictAux [] items

/-- `flatten_dict(data)` (default `parent_key=""`). -/
def flatten_dict (data : Entries) : Entries := pyDict (flattenEntries data "")

/-- Key list of a dict. -/
def entryKeys (es : Entries) : List String := es.map Prod.fst

/-- Well-formedness a value coming from a real Python dict always has:
every nesting level carries pairwise-distinct keys. -/
def wfEntries : Entries → Bool
  | [] => true
  | (k, JVal.vdict sub) :: rest =>
      !(lookupEntry k rest).isSome && wfEntries sub && wfEntries rest
  | (k, JVal.vleaf _) :: rest => !(lookupEntry k rest).isSome && wfEntries rest
termination_by l => sizeOf l

/-- Spec-side characterization of a merge conflict (for claim C3): some key
of the overlay is present in the base with at least one of the two sides not
a dict, or both sides are dicts whose merge conflicts recursively. -/
def hasConflictEntries : Entries → Entries → Bool
  | _, [] => false
  | d1, (k, v) :: rest =>
    (match lookupEntry k d1 with
     | none => false
     | some (JVal.vdict e0) =>
       match v with
       | JVal.vdict e2 => hasConflictEntries e0 e2
       | _ => true
     | some _ => true) || hasConflictEntries d1 rest
termination_by _ l => sizeOf l

def isErr {ε α : Type} : Except ε α → Bool
  | .error _ => true
  | .ok _ => false

/-! ### Entry-list lemmas -/

theorem lookupEntry_isSome_iff (k : String) (es : Entries) :
    (lookupEntry k es).isSome = true ↔ k ∈ entryKeys es := by
  induction es with
  | nil => simp [lookupEntry, entryKeys]
  | cons e rest ih =>
    obtain ⟨k', v⟩ := e
    by_cases h : k' = k
    · subst h; simp [lookupEntry, entryKeys]
    · simp [lookupEntry, entryKeys, h, ih, Ne.symm h]

theorem lookupEntry_none_iff (k : String) (es : Entries) :
    lookupEntry k es = none ↔ k ∉ entryKeys es := by
  rw [← lookupEntry_isSome_iff]
  cases lookupEntry k es <;> simp

theorem lookupEntry_append (k : String) (a b : Entries) :
    lookupEntry k (a ++ b) =
      match lookupEntry k a with
      | some v => some v
      | none => lookupEntry k b := by
  induction a with
  | nil => simp [lookupEntry]
  | cons e rest ih =>
    obtain ⟨k', v⟩ := e
    by_cases h : k' = k <;> simp [lookupEntry, h, ih]

theorem lookupEntry_append_singleton_ne (k k' : String) (h : k' ≠ k) (v : JVal)
    (es : Entries) : lookupEntry k' (es ++ [(k, v)]) = lookupEntry k' es := by
  rw [lookupEntry_append]
  cases hl : lookupEntry k' es with
  | some w => rfl
  | none => simp [lookupEntry, Ne.symm h]

theorem updateEntry_keys (k : String) (w : JVal) (es : Entries) :
    entryKeys (updateEntry k w es) = entryKeys es := by
  induction es with
  | nil => rfl
  | cons e rest ih =>
    obtain ⟨k', v⟩ := e
    by_cases h : k' = k
    · simp [updateEntry, h, entryKeys]
    · simp [updateEntry, h, entryKeys]
      simpa [entryKeys] using ih

theorem lookupEntry_update_ne (k k' : String) (h : k' ≠ k) (w : JVal) (es : Entries) :
    lookupEntry k' (updateEntry k w es) = lookupEntry k' es := by
  induction es with
  | nil => rfl
  | cons e rest ih =>
    obtain ⟨k'', v⟩ := e
    by_cases hk : k'' = k
    · subst hk
      simp [updateEntry, lookupEntry, Ne.symm h]
    · by_cases hk' : k'' = k' <;> simp [updateEntry, lookupEntry, hk, hk', h, ih]

theorem lookupEntry_split (k : String) (v : JVal) (es : Entries)
    (h : lookupEntry k es = some v) :
    ∃ pre suf, es = pre ++ (k, v) :: suf ∧ lookupEntry k pre = none ∧
      ∀ w, updateEntry k w es = pre ++ (k, w) :: suf := by
  induction es with
  | nil => simp [lookupEntry] at h
  | cons e rest ih =>
    obtain ⟨k', v'⟩ := e
    by_cases hk : k' = k
    · subst hk
      simp [lookupEntry] at h
      subst h
      exact ⟨[], rest, rfl, rfl, fun w => by simp [updateEntry]⟩
    · simp [lookupEntry, hk] at h
      obtain ⟨pre, suf, hes, hpre, hupd⟩ := ih h
      refine ⟨(k', v') :: pre, suf, ?_, ?_, ?_⟩
      · rw [hes]; rfl
      · simp [lookupEntry, hk, hpre]
      · intro w; simp [updateEntry, hk, hupd w]

theorem flattenEntries_append (a b : Entries) (p : String) :
    flattenEntries (a ++ b) p = flattenEntries a p ++ flattenEntries b p := by
  induction a with
  | nil => simp [flattenEntries]
  | cons e rest ih =>
    obtain ⟨k, v⟩ := e
    cases v with
    | vleaf s => simp [flattenEntries, ih]
    | vdict sub => simp [flattenEntries, ih]

theorem flattenEntries_cons (k : String) (v : JVal) (rest : Entries) (p : String) :
    flattenEntries ((k, v) :: rest) p = flattenEntries [(k, v)] p ++ flattenEntries rest p := by
  cases v with
  | vleaf s => simp [flattenEntries]
  | vdict sub => simp [flattenEntries]

/-! ### Keys of the flattened dict -/

def flatKeys (es : Entries) (p : String) : List String := entryKeys (flattenEntries es p)

theorem flatKeys_nil_mem (p s : String) : s ∈ flatKeys [] p ↔ False := by
  simp [flatKeys, flattenEntries, entryKeys]

theorem flatKeys_append_mem (a b : Entries) (p s : String) :
    s ∈ flatKeys (a ++ b) p ↔ s ∈ flatKeys a p ∨ s ∈ flatKeys b p := by
  simp [flatKeys, flattenEntries_append, entryKeys]

theorem flatKeys_cons_dict_mem (k : String) (sub rest : Entries) (p s : String) :
    s ∈ flatKeys ((k, JVal.vdict sub) :: rest) p ↔
      s ∈ flatKeys sub (childPath p k) ∨ s ∈ flatKeys rest p := by
  simp [flatKeys, flattenEntries, entryKeys]

theorem flatKeys_cons_leaf_mem (k x : String) (rest : Entries) (p s : String) :
    s ∈ flatKeys ((k, JVal.vleaf x) :: rest) p ↔
      s = childPath p k ∨ s ∈ flatKeys rest p := by
  simp [flatKeys, flattenEntries, entryKeys]

/-- Core of claim C9: a successful `merge_dicts` walk produces exactly the
union of the flattened key sets of its accumulator and overlay. -/
theorem mergeEntries_flatKeys (acc d2 : Entries) (p : String) :
    ∀ m, mergeEntries acc d2 p = .ok m →
      ∀ s, s ∈ flatKeys m p ↔ (s ∈ flatKeys acc p ∨ s ∈ flatKeys d2 p) := by
  induction acc, d2, p using mergeEntries.induct with
  | case1 acc path =>
    intro m hm s
    rw [show mergeEntries acc [] path = .ok acc from by simp [mergeEntries]] at hm
    cases hm
    simp [flatKeys_nil_mem]
  | case2 acc k v rest path hlook ih =>
    intro m hm s
    rw [show mergeEntries acc ((k, v) :: rest) path
        = mergeEntries (acc ++ [(k, v)]) rest path from by simp [mergeEntries, hlook]] at hm
    have h2 := ih m hm s
    cases v with
    | vleaf x =>
      rw [flatKeys_append_mem, flatKeys_cons_leaf_mem, flatKeys_nil_mem] at h2
      rw [flatKeys_cons_leaf_mem]
      tauto
    | vdict sub =>
      rw [flatKeys_append_mem, flatKeys_cons_dict_mem, flatKeys_nil_mem] at h2
      rw [flatKeys_cons_dict_mem]
      tauto
  | case3 acc k rest path e0 hlook e2 m' hinner ih1 ih2 =>
    intro m hm s
    rw [show mergeEntries acc ((k, JVal.vdict e2) :: rest) path
        = mergeEntries (updateEntry k (JVal.vdict m') acc) rest path from by
      simp [mergeEntries, hlook, hinner]] at hm
    have h2 := ih2 m hm s
    have h1 := ih1 m' hinner s
    obtain ⟨pre, suf, hes, hpre, hupd⟩ := lookupEntry_split k _ acc hlook
    rw [hupd (JVal.vdict m')] at h2
    rw [hes, flatKeys_cons_dict_mem, flatKeys_append_mem, flatKeys_cons_dict_mem]
    rw [flatKeys_append_mem, flatKeys_cons_dict_mem] at h2
    tauto
  | case4 acc k rest path e0 hlook e2 e hinner ih1 =>
    intro m hm s
    rw [show mergeEntries acc ((k, JVal.vdict e2) :: rest) path = .error e from by
      simp [mergeEntries, hlook, hinner]] at hm
    cases hm
  | case5 acc k v rest path e0 hlook hv =>
    intro m hm s
    cases v with
    | vdict e2 => exact absurd rfl (hv e2)
    | vleaf x =>
      rw [show mergeEntries acc ((k, JVal.vleaf x) :: rest) path
          = .error ("The configs conflict at key: " ++ childPath path k) from by
        simp [mergeEntries, hlook]] at hm
      cases hm
  | case6 acc k v rest path val hval hlook =>
    intro m hm s
    cases val with
    | vdict e0 => exact absurd rfl (hval e0)
    | vleaf x =>
      rw [show mergeEntries acc ((k, v) :: rest) path
          = .error ("The configs conflict at key: " ++ childPath path k) from by
        simp [mergeEntries, hlook]] at hm
      cases hm

/-! ### `dict(items)` preserves the key set -/

theorem dictInsert_keys_mem (acc : Entries) (k : String) (v : JVal) (s : String) :
    s ∈ entryKeys (dictInsert acc k v) ↔ s ∈ entryKeys acc ∨ s = k := by
  unfold dictInsert
  by_cases h : (lookupEntry k acc).isSome = true
  · have hk := (lookupEntry_isSome_iff k acc).mp h
    simp only [h, if_true, updateEntry_keys]
    constructor
    · exact Or.inl
    · rintro (h' | rfl)
      · exact h'
      · exact hk
  · simp only [h, if_false, entryKeys, List.map_append]
    simp [entryKeys]
  
theorem pyDictAux_keys_mem (l acc : Entries) (s : String) :
    s ∈ entryKeys (pyDictAux acc l) ↔ s ∈ entryKeys acc ∨ s ∈ entryKeys l := by
  induction l generalizing acc with
  | nil => simp [pyDictAux, entryKeys]
  | cons e rest ih =>
    obtain ⟨k, v⟩ := e
    rw [show pyDictAux acc ((k, v) :: rest) = pyDictAux (dictInsert acc k v) rest from rfl]
    rw [ih]
    rw [dictInsert_keys_mem]
    simp [entryKeys]
    tauto

theorem flatten_dict_keys_mem (d : Entries) (s : String) :
    s ∈ entryKeys (flatten_dict d) ↔ s ∈ flatKeys d "" := by
  unfold flatten_dict pyDict
  rw [pyDictAux_keys_mem]
  simp [entryKeys, flatKeys]

/-- Claim C9: whenever `merge_dicts(A, B)` succeeds with result `m`, the key
set of `flatten_dict(m)` is the union of the key sets of `flatten_dict(A)`
and `flatten_dict(B)` (stated as a membership equivalence for every key). -/
theorem c9_flatten_merge_keys_union (A B m : Entries)
    (h : merge_dicts A B = .ok m) (s : String) :
    s ∈ entryKeys (flatten_dict m) ↔
      s ∈ entryKeys (flatten_dict A) ∨ s ∈ entryKeys (flatten_dict B) := by
  rw [flatten_dict_keys_mem, flatten_dict_keys_mem, flatten_dict_keys_mem]
  exact mergeEntries_flatKeys A B "" m h s

/-- Claim C9, witness: the union law at `merge({"a": 1}, {"b": 2})`. -/
theorem c9_witness :
    "a" ∈ entryKeys (flatten_dict [("a", JVal.vleaf "1"), ("b", JVal.vleaf "2")]) ↔
      "a" ∈ entryKeys (flatten_dict [("a", JVal.vleaf "1")]) ∨
        "a" ∈ entryKeys (flatten_dict [("b", JVal.vleaf "2")]) :=
  c9_flatten_merge_keys_union [("a", JVal.vleaf "1")] [("b", JVal.vleaf "2")]
    [("a", JVal.vleaf "1"), ("b", JVal.vleaf "2")]
    (by simp [merge_dicts, mergeEntries, lookupEntry]) "a"

/-! ### Merge failure is exactly a (recursive) key collision -/

theorem wfEntries_cons (k : String) (v : JVal) (rest : Entries)
    (h : wfEntries ((k, v) :: rest) = true) :
    lookupEntry k rest = none ∧ wfEntries rest = true ∧
      (∀ sub, v = JVal.vdict sub → wfEntries sub = true) := by
  cases v with
  | vleaf x =>
    simp only [wfEntries, Bool.and_eq_true, Bool.not_eq_true'] at h
    exact ⟨Option.not_isSome_iff_eq_none.mp (by simp [h.1]), h.2, fun sub hsub => by cases hsub⟩
  | vdict sub =>
    simp only [wfEntries, Bool.and_eq_true, Bool.not_eq_true'] at h
    exact ⟨Option.not_isSome_iff_eq_none.mp (by simp [h.1.1]), h.2,
      fun sub' hsub => by cases hsub; exact h.1.2⟩

theorem hasConflict_congr (d2 : Entries) (acc acc' : Entries)
    (h : ∀ k, k ∈ entryKeys d2 → lookupEntry k acc' = lookupEntry k acc) :
    hasConflictEntries acc' d2 = hasConflictEntries acc d2 := by
  induction d2 with
  | nil => simp [hasConflictEntries]
  | cons e rest ih =>
    obtain ⟨k, v⟩ := e
    have hk : lookupEntry k acc' = lookupEntry k acc :=
      h k (List.mem_cons_self k (entryKeys rest))
    have hr := ih (fun k' hk' => h k' (List.mem_cons_of_mem k hk'))
    simp only [hasConflictEntries, hk, hr]

theorem not_mem_of_lookup_none (k : String) (rest : Entries)
    (h : lookupEntry k rest = none) : ∀ k', k' ∈ entryKeys rest → k' ≠ k := by
  intro k' hk' heq
  subst heq
  exact absurd hk' ((lookupEntry_none_iff k' rest).mp h)

/-- Core of claim C3 (amended): for an overlay with pairwise-distinct keys at
every level, `merge_dicts` fails exactly when `hasConflictEntries` holds —
i.e. some key is present on both sides with at least one non-dict value
(equal or not), or both values are dicts that conflict recursively. -/
theorem mergeEntries_isErr_eq_conflict (acc d2 : Entries) (p : String) :
    wfEntries d2 = true → isErr (mergeEntries acc d2 p) = hasConflictEntries acc d2 := by
  induction acc, d2, p using mergeEntries.induct with
  | case1 acc path =>
    intro _
    rw [show mergeEntries acc [] path = .ok acc from by simp [mergeEntries]]
    simp [hasConflictEntries, isErr]
  | case2 acc k v rest path hlook ih =>
    intro hwf
    obtain ⟨hknotin, hwfrest, _⟩ := wfEntries_cons k v rest hwf
    rw [show mergeEntries acc ((k, v) :: rest) path
        = mergeEntries (acc ++ [(k, v)]) rest path from by simp [mergeEntries, hlook]]
    rw [ih hwfrest]
    rw [hasConflict_congr rest acc (acc ++ [(k, v)])
      (fun k' hk' => lookupEntry_append_singleton_ne k k'
        (not_mem_of_lookup_none k rest hknotin k' hk') v acc)]
    simp only [hasConflictEntries, hlook, Bool.false_or]
  | case3 acc k rest path e0 hlook e2 m' hinner ih1 ih2 =>
    intro hwf
    obtain ⟨hknotin, hwfrest, hsub⟩ := wfEntries_cons k (JVal.vdict e2) rest hwf
    rw [show mergeEntries acc ((k, JVal.vdict e2) :: rest) path
        = mergeEntries (updateEntry k (JVal.vdict m') acc) rest path from by
      simp [mergeEntries, hlook, hinner]]
    rw [ih2 hwfrest]
    rw [hasConflict_congr rest acc (updateEntry k (JVal.vdict m') acc)
      (fun k' hk' => lookupEntry_update_ne k k'
        (not_mem_of_lookup_none k rest hknotin k' hk') (JVal.vdict m') acc)]
    have hhead := ih1 (hsub e2 rfl)
    rw [hinner] at hhead
    simp only [hasConflictEntries, hlook, isErr] at hhead ⊢
    rw [← hhead]
    simp
  | case4 acc k rest path e0 hlook e2 e hinner ih1 =>
    intro hwf
    obtain ⟨hknotin, hwfrest, hsub⟩ := wfEntries_cons k (JVal.vdict e2) rest hwf
    rw [show mergeEntries acc ((k, JVal.vdict e2) :: rest) path = .error e from by
      simp [mergeEntries, hlook, hinner]]
    have hhead := ih1 (hsub e2 rfl)
    rw [hinner] at hhead
    simp only [hasConflictEntries, hlook, isErr] at hhead ⊢
    rw [← hhead]
    simp
  | case5 acc k v rest path e0 hlook hv =>
    intro hwf
    cases v with
    | vdict e2 => exact absurd rfl (hv e2)
    | vleaf x =>
      rw [show mergeEntries acc ((k, JVal.vleaf x) :: rest) path
          = .error ("The configs conflict at key: " ++ childPath path k) from by
        simp [mergeEntries, hlook]]
      simp [hasConflictEntries, hlook, isErr]
  | case6 acc k v rest path val hval hlook =>
    intro hwf
    cases val with
    | vdict e0 => exact absurd rfl (hval e0)
    | vleaf x =>
      rw [show mergeEntries acc ((k, v) :: rest) path
          = .error ("The configs conflict at key: " ++ childPath path k) from by
        simp [mergeEntries, hlook]]
      simp [hasConflictEntries, hlook, isErr]

/-- Claim C3, counterexample: `merge({"a": 1}, {"a": 1})` — the same leaf
value on both sides — raises the conflict error naming path `"a"`, whereas
the claim says equal leaf values do not conflict and the merge succeeds. -/
theorem c3_counterexample :
    merge_dicts [("a", JVal.vleaf "1")] [("a", JVal.vleaf "1")]
      = .error "The configs conflict at key: a" := by
  simp [merge_dicts, mergeEntries, lookupEntry, childPath]

/-- Claim C3 (amended): `merge_dicts(base, overlay)` fails (with a `ValueError`
naming the full dotted path of the colliding key) if and only if some key
exists in both inputs where at least one side is a non-map leaf — whether or
not the two leaf values are equal — or both sides are maps that conflict
recursively; stated for overlays with pairwise-distinct keys per level, as
produced by real Python dicts.  The second conjunct exhibits the dotted-path
error message on a nested conflict. -/
theorem c3_merge_conflict_amended :
    (∀ (d1 d2 : Entries), wfEntries d2 = true →
        isErr (merge_dicts d1 d2) = hasConflictEntries d1 d2) ∧
    merge_dicts [("a", JVal.vdict [("x", JVal.vleaf "1")])]
        [("a", JVal.vdict [("x", JVal.vleaf "2")])]
      = .error "The configs conflict at key: a.x" := by
  constructor
  · intro d1 d2 hwf
    exact mergeEntries_isErr_eq_conflict d1 d2 "" hwf
  · simp [merge_dicts, mergeEntries, lookupEntry, childPath]

/-- Claim C3, witness: the law at `merge({"a": 1}, {"a": 2})` (the spec's own
unequal-leaf example). -/
theorem c3_witness :
    isErr (merge_dicts [("a", JVal.vleaf "1")] [("a", JVal.vleaf "2")])
      = hasConflictEntries [("a", JVal.vleaf "1")] [("a", JVal.vleaf "2")] :=
  c3_merge_conflict_amended.1 [("a", JVal.vleaf "1")] [("a", JVal.vleaf "2")]
    (by simp [wfEntries, lookupEntry])

/-! ## Retry-bounded probes (`utils.py`, `snap_manager.py`)

The tenacity wrappers are modelled over an oracle giving the wrapped call's
outcome at each (1-based) attempt number.  A `RetryTrace` records the value
produced, the number of attempts actually made, and the total seconds slept
between attempts (`wait_fixed`). -/

structure RetryTrace (α : Type) where
  result : α
  attempts : Nat
  totalWait : Nat
deriving DecidableEq

/-- `@retry(stop=stop_after_attempt(n), wait=wait_fixed(waitS),
retry=retry_if_result(lambda x: x is False),
retry_error_callback=(lambda state: state.outcome.result()))`:
`remaining` counts the attempts still allowed after the current one; on the
last attempt the boolean outcome is returned as-is (no exception). -/
def retryBoolAux (waitS : Nat) (check : Nat → Bool) : Nat → Nat → Nat → RetryTrace Bool
  | attempt, 0, waited => ⟨check attempt, attempt, waited⟩
  | attempt, remaining + 1, waited =>
    if check attempt then ⟨true, attempt, waited⟩
    else retryBoolAux waitS check (attempt + 1) remaining (waited + waitS)

/-- `check_metrics_endpoint` (utils.py): 5 attempts, fixed 2-second wait; the
body (HTTP GET, `True` iff status 200, `False` on `RequestException`) is the
oracle. -/
def check_metrics_endpoint (endpointOk : Nat → Bool) : RetryTrace Bool :=
  retryBoolAux 2 endpointOk 1 4 0

/-- `SnapClient.check` (snap_manager.py): the same 5-attempt / 2-second
policy over the "all snap services active" query. -/
def snap_client_check (servicesActive : Nat → Bool) : RetryTrace Bool :=
  retryBoolAux 2 servicesActive 1 4 0

/-- The two exception kinds `decode_secret` can raise. -/
inductive SecretError where
  | access (msg : String)
  | invalidContent (msg : String)
deriving DecidableEq

/-- `@retry(stop=stop_after_attempt(n), wait=wait_fixed(waitS),
retry=retry_if_exception_type(SecretAccessError), reraise=True)`: only
`SecretAccessError` is retried; with `reraise=True` exhaustion re-raises the
last attempt's outcome instead of a `RetryError`. -/
def retryExcAux (waitS : Nat) (call : Nat → Except SecretError Entries) :
    Nat → Nat → Nat → RetryTrace (Except SecretError Entries)
  | attempt, 0, waited => ⟨call attempt, attempt, waited⟩
  | attempt, remaining + 1, waited =>
    match call attempt with
    | .ok v => ⟨.ok v, attempt, waited⟩
    | .error (.access _) => retryExcAux waitS call (attempt + 1) remaining (waited + waitS)
    | .error e => ⟨.error e, attempt, waited⟩

/-- `decode_secret_with_retry` (utils.py): 3 attempts, fixed 5-second wait,
around `decode_secret` (whose per-attempt outcome is the oracle). -/
def decode_secret_with_retry (call : Nat → Except SecretError Entries) :
    RetryTrace (Except SecretError Entries) :=
  retryExcAux 5 call 1 2 0

/-- Claim C8: boolean-mode probes (`check_metrics_endpoint`,
`SnapClient.check`) retry a `False`-returning check up to 5 attempts with a
fixed 2-second delay (4 sleeps, 8 seconds total) and, on exhaustion, return
the last attempt's boolean result — their result type raises nothing; the
exception-mode probe (`decode_secret_with_retry`) retries `SecretAccessError`
up to 3 attempts with a fixed 5-second delay and on exhaustion re-raises the
last attempt's outcome. -/
theorem c8_retry_exhaustion :
    (∀ endpointOk : Nat → Bool,
        endpointOk 1 = false → endpointOk 2 = false → endpointOk 3 = false →
          endpointOk 4 = false →
          check_metrics_endpoint endpointOk = ⟨endpointOk 5, 5, 8⟩) ∧
    (∀ servicesActive : Nat → Bool,
        servicesActive 1 = false → servicesActive 2 = false →
          servicesActive 3 = false → servicesActive 4 = false →
          snap_client_check servicesActive = ⟨servicesActive 5, 5, 8⟩) ∧
    (∀ (call : Nat → Except SecretError Entries) (m1 m2 : String),
        call 1 = .error (.access m1) → call 2 = .error (.access m2) →
          decode_secret_with_retry call = ⟨call 3, 3, 10⟩) := by
  refine ⟨?_, ?_, ?_⟩
  · intro f h1 h2 h3 h4
    simp [check_metrics_endpoint, retryBoolAux, h1, h2, h3, h4]
  · intro f h1 h2 h3 h4
    simp [snap_client_check, retryBoolAux, h1, h2, h3, h4]
  · intro call m1 m2 h1 h2
    simp [decode_secret_with_retry, retryExcAux, h1, h2]

/-- Claim C8, witness: an endpoint that never answers yields `false` after 5
attempts and 8 seconds of waiting, with no error raised. -/
theorem c8_witness : check_metrics_endpoint (fun _ => false) = ⟨false, 5, 8⟩ :=
  c8_retry_exhaustion.1 (fun _ => false) rfl rfl rfl rfl

/-! ## Charm configuration (`config.py`) -/

/-- `CharmConfig` after pydantic validation/resolution (`_validate_config`
has already run: channel→revision lookup and the secret overlay merge are
reflected in `snap_revision` / `snap_config`).  Snap and unit names are
`Str`, since they flow into the registry filenames. -/
structure Config where
  snap_name : Option Str
  exporter_port : Option Int
  snap_classic : Bool
  snap_channel : Option String
  snap_revision : Option Int
  snap_config : Option Entries
  metrics_path : String
  snap_plugs : Option (List String)
  snap_config_secret : Option String

def REQUIRED_FIELDS : List String := ["snap_name", "exporter_port"]

/-- `getattr(self, field, None) is None` for the fields of `REQUIRED_FIELDS`. -/
def configFieldIsNone (c : Config) : String → Bool
  | "snap_name" => c.snap_name.isNone
  | "exporter_port" => c.exporter_port.isNone
  | _ => false

/-- `field.replace('_', '-')`. -/
def underscoreToDash (f : String) : String :=
  String.mk (f.toList.map (fun ch => if ch = '_' then '-' else ch))

/-- `CharmConfig.check_required_fields`: every required field that is `None`,
reported with dashes, in declaration order; `None` when nothing is missing. -/
def check_required_fields (c : Config) : Option (List String) :=
  let missing := (REQUIRED_FIELDS.filter (configFieldIsNone c)).map underscoreToDash
  if missing.isEmpty then none else some missing

/-! ## The charm engine (`charm.py`) -/

/-- The `CharmError` subclasses raised by the helper methods, with their
message (`str(ce)` is what `BlockedStatus` shows). -/
inductive CharmErr where
  | configError (msg : String)
  | installError (msg : String)
  | statusError (msg : String)
  | uninstallError (msg : String)
deriving DecidableEq

def charmErrMsg : CharmErr → String
  | .configError m => m
  | .installError m => m
  | .statusError m => m
  | .uninstallError m => m

/-- An abnormal outcome of a helper: a `CharmError` (caught by `reconcile`)
or an `OSError` escaping from the registry (not caught anywhere). -/
inductive RunErr where
  | charm (e : CharmErr)
  | os
deriving DecidableEq

/-- Side effects of one invocation, in order of occurrence.  Registry writes
and snap-manager commands are recorded; `_set_workload_version`,
`_configure_alerts` and the alerts-dir cleanup in `remove` only touch
filesystem/YAML state outside the verified core and are recorded as opaque
effects. -/
inductive Eff where
  | regRegister (unit snap : Str)
  | regUnregister (unit snap : Str)
  | snapInstall (snap : Str) (revision : Int) (classic : Bool)
  | snapRemove (snap : Str)
  | snapEnableStart (snap : Str)
  | snapDisableStop (snap : Str)
  | snapEnsure (snap : Str) (revision : Int) (classic : Bool)
  | snapUnset (snap : Str) (keys : List String)
  | snapSet (snap : Str)
  | snapConnect (snap : Str) (plug : String)
  | setWorkloadVersion
  | configureAlerts
  | cleanupAlerts
deriving DecidableEq

/-- The durable charm state: `StoredState.installed_snap_name` plus the
shared registration directory. -/
structure CharmState where
  installed_snap_name : Option Str
  registry : Registry
deriving DecidableEq

/-- Success oracle for the external snap-manager boundary (each `SnapClient`
call is fallible and returns a boolean), plus the outcomes of the two
retry-bounded probes and the relation query in `_check_status`. -/
structure SnapEnv where
  installOk : Str → Bool
  removeOk : Str → Bool
  enableStartOk : Str → Bool
  disableStopOk : Str → Bool
  ensureOk : Str → Bool
  unsetOk : Str → Bool
  setOk : Str → Bool
  connectOk : Str → String → Bool
  getConfig : Str → Entries
  checkOk : Str → Bool
  metricsOk : String → Bool
  cosRelated : Bool

/-- Result of one helper call: post-state, effect trace, optional error. -/
structure StepResult where
  state : CharmState
  trace : List Eff
  err : Option RunErr
deriving DecidableEq

/-- `f"{x}"` for an `Optional[str]`. -/
def pyOptStr : Option Str → String
  | none => "None"
  | some s => String.mk s

/-- `f"{x}"` for an `Optional[int]`. -/
def pyOptInt : Option Int → String
  | none => "None"
  | some i => toString i

/-- `GenericExporterOperatorCharm._install`: skip when there is no snap name
or no resolved revision; otherwise register with the singleton manager, then
`snap install` (raise `CharmInstallError` on failure, `stored` untouched),
then record the installed name, then `enable_and_start` (raise on failure —
note `stored` has already been updated). -/
def charm_install (c : Config) (unitName : Str) (st : CharmState) (env : SnapEnv) :
    StepResult :=
  match c.snap_name, c.snap_revision with
  | some name, some rev =>
    let reg1 := register st.registry unitName name
    let tr1 := [Eff.regRegister unitName name, Eff.snapInstall name rev c.snap_classic]
    if env.installOk name then
      if env.enableStartOk name then
        ⟨⟨some name, reg1⟩, tr1 ++ [Eff.snapEnableStart name], none⟩
      else
        ⟨⟨some name, reg1⟩, tr1 ++ [Eff.snapEnableStart name],
          some (.charm (.installError ("Failed to start snap services for: "
            ++ String.mk name ++ ". See juju debug-log for details.")))⟩
    else
      ⟨⟨st.installed_snap_name, reg1⟩, tr1,
        some (.charm (.installError ("Failed to install snap: " ++ String.mk name
          ++ ". See juju debug-log for details.")))⟩
  | _, _ => ⟨st, [], none⟩

/-- `GenericExporterOperatorCharm._remove`: no-op when nothing is recorded as
installed; otherwise unregister the stored name (an `OSError` escapes), skip
the snap removal when `is_used_by_other_units` holds, raise
`CharmUninstallError` when the removal command fails (note `stored` is NOT
cleared on that path), and clear `stored` otherwise. -/
def charm_remove_helper (unitName : Str) (st : CharmState) (env : SnapEnv) : StepResult :=
  match st.installed_snap_name with
  | none => ⟨st, [], none⟩
  | some name =>
    match unregister st.registry unitName name with
    | .error _ => ⟨st, [], some .os⟩
    | .ok reg2 =>
      let tr := [Eff.regUnregister unitName name]
      match is_used_by_other_units reg2 unitName name with
      | .error _ => ⟨⟨some name, reg2⟩, tr, some .os⟩
      | .ok true => ⟨⟨none, reg2⟩, tr, none⟩
      | .ok false =>
        if env.removeOk name then
          ⟨⟨none, reg2⟩, tr ++ [Eff.snapRemove name], none⟩
        else
          ⟨⟨some name, reg2⟩, tr ++ [Eff.snapRemove name],
            some (.charm (.uninstallError ("Failed to uninstall snap: "
              ++ String.mk name ++ ". See juju debug-log for details.")))⟩

/-- `GenericExporterOperatorCharm.remove` (the `remove`-event handler, the
instance tear-down path): clean the alerts rules dir, then `_remove`;
nothing catches the errors here. -/
def charm_remove (unitName : Str) (st : CharmState) (env : SnapEnv) : StepResult :=
  let r := charm_remove_helper unitName st env
  ⟨r.state, Eff.cleanupAlerts :: r.trace, r.err⟩

/-- `_get_snap_config_diff`: flattened keys reported by the snap but absent
from the desired config (Python builds a set difference; the order of the
resulting list is irrelevant to the charm, which only iterates it). -/
def snap_config_diff (old new : Entries) : List String :=
  (entryKeys (flatten_dict old)).filter
    (fun k => !((entryKeys (flatten_dict new)).contains k))

/-- `plug`-by-`plug` `snap connect` loop: stops at the first failure. -/
def connectPlugs (env : SnapEnv) (name : Str) : List String → List Eff × Bool
  | [] => ([], true)
  | p :: rest =>
    if env.connectOk name p then
      let r := connectPlugs env name rest
      (Eff.snapConnect name p :: r.1, r.2)
    else ([Eff.snapConnect name p], false)

/-- `GenericExporterOperatorCharm._configure` (config-changed invocations):
workload version and alerts handling (opaque effects), then — when a snap is
configured — stop, `ensure` the revision, unset the stale keys, set the
desired config, connect the plugs, restart; the first failing sub-step
raises `CharmConfigError`.  Error messages are abbreviated to the failing
sub-step and snap name. -/
def charm_configure (c : Config) (st : CharmState) (env : SnapEnv) : StepResult :=
  let tr0 := [Eff.setWorkloadVersion, Eff.configureAlerts]
  match c.snap_name, c.snap_revision with
  | some name, some rev =>
    let tr1 := tr0 ++ [Eff.snapDisableStop name, Eff.snapEnsure name rev c.snap_classic]
    if env.ensureOk name then
      let keysToUnset := snap_config_diff (env.getConfig name) (c.snap_config.getD [])
      let tr2 := tr1 ++ (if keysToUnset.isEmpty then [] else [Eff.snapUnset name keysToUnset])
      if !keysToUnset.isEmpty && !env.unsetOk name then
        ⟨st, tr2, some (.charm (.configError ("Failed to unset config keys for snap: "
          ++ String.mk name ++ ". See juju debug-log for details.")))⟩
      else
        let setWanted := !(c.snap_config.getD []).isEmpty
        let tr3 := tr2 ++ (if setWanted then [Eff.snapSet name] else [])
        if setWanted && !env.setOk name then
          ⟨st, tr3, some (.charm (.configError ("Failed to set config for snap: "
            ++ String.mk name ++ ". See juju debug-log for details.")))⟩
        else
          let plugs := c.snap_plugs.getD []
          let pr := connectPlugs env name plugs
          let tr4 := tr3 ++ pr.1
          if !plugs.isEmpty && !pr.2 then
            ⟨st, tr4, some (.charm (.configError ("Failed to connect plugs for snap: "
              ++ String.mk name ++ ". See juju debug-log for details.")))⟩
          else
            let tr5 := tr4 ++ [Eff.snapEnableStart name]
            if env.enableStartOk name then ⟨st, tr5, none⟩
            else ⟨st, tr5, some (.charm (.configError ("Failed to restart snap services for: "
              ++ String.mk name ++ ". See juju debug-log for details.")))⟩
    else
      ⟨st, tr1, some (.charm (.configError ("Failed to configure snap: "
        ++ String.mk name ++ ". See juju debug-log for details.")))⟩
  | _, _ => ⟨st, tr0, none⟩

/-- `GenericExporterOperatorCharm._check_status`: required-fields report,
snap services probe, metrics endpoint probe, `cos-agent` relation — in that
order, raising `CharmStatusError` with the first failure. -/
def charm_check_status (c : Config) (env : SnapEnv) : Except CharmErr Unit :=
  match check_required_fields c with
  | some missing =>
    .error (.statusError ("Missing required configuration fields: "
      ++ String.intercalate ", " missing))
  | none =>
    let snapCheckFailed :=
      match c.snap_name with
      | some name => !env.checkOk name
      | none => false
    if snapCheckFailed then
      .error (.statusError ("Snap services for " ++ pyOptStr c.snap_name
        ++ " are not active."))
    else
      let url := "http://localhost:" ++ pyOptInt c.exporter_port ++ "/" ++ c.metrics_path
      if !env.metricsOk url then
        .error (.statusError ("Metrics endpoint for " ++ pyOptStr c.snap_name
          ++ " is not reachable."))
      else if !env.cosRelated then
        .error (.statusError "Missing relation: [cos-agent]")
      else
        .ok ()

/-- The user-visible outcome of one invocation: `ActiveStatus`,
`BlockedStatus(str(ce))`, or an uncaught exception. -/
inductive Outcome where
  | active
  | blocked (msg : String)
  | raised
deriving DecidableEq

structure RunOut where
  state : CharmState
  trace : List Eff
  outcome : Outcome
deriving DecidableEq

def errToOutcome : Option RunErr → Outcome
  | none => .active
  | some (.charm e) => .blocked (charmErrMsg e)
  | some .os => .raised

/-- `GenericExporterOperatorCharm.reconcile`, after `_validate_config` has
produced the resolved `Config` `c`: when the stored name differs from the
desired one, `_remove` then `_install`; on `config-changed` events also
`_configure`; then `_check_status`; `CharmError`s become `BlockedStatus`,
everything else escapes. -/
def reconcile (c : Config) (unitName : Str) (isConfigChanged : Bool)
    (st : CharmState) (env : SnapEnv) : RunOut :=
  let r1 : StepResult :=
    if st.installed_snap_name = c.snap_name then ⟨st, [], none⟩
    else
      let ra := charm_remove_helper unitName st env
      match ra.err with
      | some _ => ra
      | none =>
        let rb := charm_install c unitName ra.state env
        ⟨rb.state, ra.trace ++ rb.trace, rb.err⟩
  match r1.err with
  | some e => ⟨r1.state, r1.trace, errToOutcome (some e)⟩
  | none =>
    let r2 : StepResult :=
      if isConfigChanged then
        let rc := charm_configure c r1.state env
        ⟨rc.state, r1.trace ++ rc.trace, rc.err⟩
      else r1
    match r2.err with
    | some e => ⟨r2.state, r2.trace, errToOutcome (some e)⟩
    | none =>
      match charm_check_status c env with
      | .error e => ⟨r2.state, r2.trace, .blocked (charmErrMsg e)⟩
      | .ok _ => ⟨r2.state, r2.trace, .active⟩

/-! ### Concrete environments and states for witnesses / counterexamples -/

/-- An environment where every snap-manager call succeeds. -/
def envAllOk : SnapEnv :=
  ⟨fun _ => true, fun _ => true, fun _ => true, fun _ => true, fun _ => true,
   fun _ => true, fun _ => true, fun _ _ => true, fun _ => [], fun _ => true,
   fun _ => true, true⟩

/-- Same, but `snap remove` fails. -/
def envNoRemove : SnapEnv := { envAllOk with removeOk := fun _ => false }

/-- Claim C4 (amended): on the tear-down removal path the engine unregisters
the stored identity and issues the snap removal only when no other peer
holds it; `installed_snap_name` is cleared when the removal was skipped or
succeeded, but when the removal command fails a `CharmUninstallError` is
raised before the clearing assignment, so the identity is retained. -/
theorem c4_remove_path_amended (unitName name : Str) (st : CharmState)
    (env : SnapEnv) (reg2 : Registry) (b : Bool)
    (hinst : st.installed_snap_name = some name)
    (hunreg : unregister st.registry unitName name = .ok reg2)
    (hused : is_used_by_other_units reg2 unitName name = .ok b) :
    charm_remove unitName st env =
      if b then
        ⟨⟨none, reg2⟩, [.cleanupAlerts, .regUnregister unitName name], none⟩
      else if env.removeOk name then
        ⟨⟨none, reg2⟩,
          [.cleanupAlerts, .regUnregister unitName name, .snapRemove name], none⟩
      else
        ⟨⟨some name, reg2⟩,
          [.cleanupAlerts, .regUnregister unitName name, .snapRemove name],
          some (.charm (.uninstallError ("Failed to uninstall snap: " ++ String.mk name
            ++ ". See juju debug-log for details.")))⟩ := by
  cases b with
  | true => simp [charm_remove, charm_remove_helper, hinst, hunreg, hused]
  | false =>
    by_cases hr : env.removeOk name = true <;>
      simp [charm_remove, charm_remove_helper, hinst, hunreg, hused, hr]

def stJustA : CharmState := ⟨some ['a'], [regFilename ['a'] unit0]⟩

/-- Claim C4, counterexample: sole holder, `snap remove` fails — the handler
raises the uninstall error and `installed_snap_name` is still `"a"`, not
cleared, contradicting "in every case ... cleared afterward". -/
theorem c4_counterexample :
    charm_remove unit0 stJustA envNoRemove =
      ⟨⟨some ['a'], []⟩,
        [.cleanupAlerts, .regUnregister unit0 ['a'], .snapRemove ['a']],
        some (.charm (.uninstallError
          "Failed to uninstall snap: a. See juju debug-log for details."))⟩ ∧
    (charm_remove unit0 stJustA envNoRemove).state.installed_snap_name ≠ none :=
  ⟨rfl, by decide⟩

/-- Claim C4, witness: the amended characterization at a sole holder whose
removal succeeds (identity cleared, removal issued). -/
theorem c4_witness :
    charm_remove unit0 stJustA envAllOk =
      ⟨⟨none, []⟩, [.cleanupAlerts, .regUnregister unit0 ['a'], .snapRemove ['a']], none⟩ := by
  rw [c4_remove_path_amended unit0 ['a'] stJustA envAllOk [] false rfl rfl rfl]
  rfl

/-- Claim C2: one reconcile invocation with stored identity `A`, desired
identity `B`, and `A` registered by this peer (`p1`) and one other peer
(`p2`): `A` is unregistered, the snap removal for `A` is NOT issued (the
other peer still holds it), the install for `B` is issued, and the stored
identity ends as `B` (it is recorded right after a successful install,
before the service start is even attempted). -/
theorem c2_identity_change_no_removal (c : Config) (st : CharmState) (env : SnapEnv)
    (p1 p2 A B : Str) (rB : Int)
    (hstored : st.installed_snap_name = some A)
    (hname : c.snap_name = some B)
    (hrev : c.snap_revision = some rB)
    (hAB : A ≠ B)
    (hreg : st.registry = [regFilename A p1, regFilename A p2])
    (hp2 : from_filename (regFilename A p2) = .ok (A, normalize_name p2))
    (hother : normalize_name p2 ≠ p1)
    (hinstOk : env.installOk B = true) :
    Eff.regUnregister p1 A ∈ (reconcile c p1 false st env).trace ∧
    Eff.snapRemove A ∉ (reconcile c p1 false st env).trace ∧
    Eff.snapInstall B rB c.snap_classic ∈ (reconcile c p1 false st env).trace ∧
    (reconcile c p1 false st env).state.installed_snap_name = some B := by
  have hcond : ¬(st.installed_snap_name = c.snap_name) := by
    rw [hstored, hname]
    simp [hAB]
  have hunreg : unregister st.registry p1 A = .ok [regFilename A p2] := by
    rw [hreg]
    simp [unregister, List.erase_cons_head]
  have hused : is_used_by_other_units [regFilename A p2] p1 A = .ok true := by
    simp [is_used_by_other_units, get_units, hp2, bne_iff_ne, hother]
  have hra : charm_remove_helper p1 st env
      = ⟨⟨none, [regFilename A p2]⟩, [Eff.regUnregister p1 A], none⟩ := by
    simp [charm_remove_helper, hstored, hunreg, hused]
  by_cases hes : env.enableStartOk B = true
  · have hrb : charm_install c p1 ⟨none, [regFilename A p2]⟩ env
        = ⟨⟨some B, register [regFilename A p2] p1 B⟩,
            [Eff.regRegister p1 B, Eff.snapInstall B rB c.snap_classic,
              Eff.snapEnableStart B], none⟩ := by
      simp [charm_install, hname, hrev, hinstOk, hes]
    cases hcs : charm_check_status c env with
    | error e =>
      simp [reconcile, hcond, hra, hrb, hcs]
    | ok u =>
      simp [reconcile, hcond, hra, hrb, hcs]
  · have hrb : charm_install c p1 ⟨none, [regFilename A p2]⟩ env
        = ⟨⟨some B, register [regFilename A p2] p1 B⟩,
            [Eff.regRegister p1 B, Eff.snapInstall B rB c.snap_classic,
              Eff.snapEnableStart B],
            some (.charm (.installError ("Failed to start snap services for: "
              ++ String.mk B ++ ". See juju debug-log for details.")))⟩ := by
      simp [charm_install, hname, hrev, hinstOk, hes]
    simp [reconcile, hcond, hra, hrb]

def snapOldA : Str := ['a']

def snapNewB : Str := ['b']

def cfgB : Config :=
  ⟨some snapNewB, some 9100, false, none, some 1, none, "metrics", none, none⟩

def stTwoPeers : CharmState :=
  ⟨some snapOldA, [regFilename snapOldA unit0, regFilename snapOldA unit1]⟩

/-- Claim C2, witness: the scenario at stored `"a"`, desired `"b"`, peers
`"unit-0"` (self) and `"unit-1"`, with every snap command succeeding. -/
theorem c2_witness :
    Eff.regUnregister unit0 snapOldA ∈ (reconcile cfgB unit0 false stTwoPeers envAllOk).trace ∧
    Eff.snapRemove snapOldA ∉ (reconcile cfgB unit0 false stTwoPeers envAllOk).trace ∧
    Eff.snapInstall snapNewB 1 cfgB.snap_classic
      ∈ (reconcile cfgB unit0 false stTwoPeers envAllOk).trace ∧
    (reconcile cfgB unit0 false stTwoPeers envAllOk).state.installed_snap_name
      = some snapNewB :=
  c2_identity_change_no_removal cfgB stTwoPeers envAllOk unit0 unit1 snapOldA snapNewB 1
    rfl rfl rfl (by decide) rfl rfl (by decide) rfl

def cfgNone : Config := ⟨none, none, false, none, none, none, "metrics", none, none⟩

/-- Claim C6, counterexample: with both required fields absent but a stored
identity `"a"` from a previous apply, one invocation first unregisters and
removes `"a"` — real side effects — and only afterwards reports the
missing-fields `Blocked` status; the check is not performed before
install/remove side effects.  (The message does list both fields.) -/
theorem c6_counterexample :
    reconcile cfgNone unit0 false stJustA envAllOk =
      ⟨⟨none, []⟩, [.regUnregister unit0 ['a'], .snapRemove ['a']],
        .blocked "Missing required configuration fields: snap-name, exporter-port"⟩ := by
  rfl

/-- Claim C6 (amended): a resolved spec missing mandatory fields yields
`Blocked` with a report listing every missing field name (snap-name and
exporter-port, in that order); the check happens inside the status step
after the install/remove/configure steps, not as step 1 — though when the
stored identity already matches the desired one (e.g. a fresh instance) no
side effect precedes it, and the whole invocation is effect-free. -/
theorem c6_missing_fields_amended (c : Config) (st : CharmState) (env : SnapEnv) (u : Str)
    (hname : c.snap_name = none) (hport : c.exporter_port = none)
    (hst : st.installed_snap_name = none) :
    reconcile c u false st env =
      ⟨st, [], .blocked "Missing required configuration fields: snap-name, exporter-port"⟩ := by
  have hcond : st.installed_snap_name = c.snap_name := by rw [hst, hname]
  have hmiss : check_required_fields c = some ["snap-name", "exporter-port"] := by
    simp [check_required_fields, REQUIRED_FIELDS, configFieldIsNone, hname, hport]
    constructor <;> decide
  simp [reconcile, hcond, charm_check_status, hmiss]
  decide

/-- Claim C6, witness: the amended statement on a fresh instance. -/
theorem c6_witness :
    reconcile cfgNone unit0 false ⟨none, []⟩ envAllOk =
      ⟨⟨none, []⟩, [], .blocked "Missing required configuration fields: snap-name, exporter-port"⟩ :=
  c6_missing_fields_amended cfgNone ⟨none, []⟩ envAllOk unit0 rfl rfl rfl
